import Mathlib

/-!
Verification of the Strategic Alliance Builder scoring and tracking core.

The JavaScript modules are shallowly embedded: JS numbers become exact
rationals (`ℚ`), `Math.round` and `Math.ceil` become explicit functions on
`ℚ`, JS objects become structures, absent (`undefined`) string fields are
modelled as the empty string, absent numeric fields as `0` (JS truthiness
tests `if (x)` become `x ≠ 0` / `x ≠ ""` tests), genuinely optional
sub-records become `Option`, and JS `null` results and thrown exceptions
become `Option` and `Except` values. JS arrays that are shared by reference
(the task arrays of `data.js`) are modelled with an explicit store of
arrays addressed by index.
-/

namespace SAB

/-- JavaScript `Math.round`: round half toward positive infinity. The
executable `Rat.floor` is used so that concrete scores evaluate by kernel
reduction. -/
def jsRound (x : ℚ) : ℤ := (x + 1/2).floor

/-- JavaScript `Math.ceil`. -/
def jsCeil (x : ℚ) : ℤ := x.ceil

/-! ## PartnerMatcher (matching module)

Embedding of the partner-matching module: compatibility scoring between two
brand profiles from five weighted sub-scores. -/

namespace PartnerMatcher

/-- The `partnership` sub-object of a brand profile. -/
structure BrandPartnership where
  objectives : List String

/-- A brand profile. String fields use `""` for a missing (falsy) value. -/
structure Brand where
  industry : String
  values : List String
  geographicFocus : String
  companySize : String
  partnership : Option BrandPartnership

/-- The JS access `brand.partnership?.objectives || []`. -/
def Brand.objectivesOrEmpty (b : Brand) : List String :=
  match b.partnership with
  | some p => p.objectives
  | none => []

/-- The matching criteria weights object. -/
structure Weights where
  industry : ℚ
  values : ℚ
  objectives : ℚ
  geography : ℚ
  companySize : ℚ

/-- Weights: 20% industry, 25% values, 25% objectives, 15% geography,
15% company size. -/
def weights : Weights :=
  { industry := 20/100
    values := 25/100
    objectives := 25/100
    geography := 15/100
    companySize := 15/100 }

/-- The fixed directed table of complementary industries. -/
def complementaryIndustries : List (String × List String) :=
  [("sports", ["entertainment", "healthcare", "retail"]),
   ("entertainment", ["sports", "technology", "retail"]),
   ("technology", ["entertainment", "financial", "healthcare"]),
   ("retail", ["sports", "entertainment", "food"]),
   ("financial", ["technology", "education"]),
   ("healthcare", ["sports", "technology", "education"]),
   ("education", ["technology", "healthcare", "financial"]),
   ("food", ["retail", "healthcare"]),
   ("automotive", ["technology", "retail"])]

/-- Function `calculateIndustryScore`: 1.0 on a direct match, 0.7 when the second
industry is listed as complementary to the first, 0.3 otherwise, 0 when
either argument is missing. -/
def calculateIndustryScore (industry1 industry2 : String) : ℚ :=
  if industry1 = "" ∨ industry2 = "" then 0
  else if industry1 = industry2 then 1
  else
    match complementaryIndustries.lookup industry1 with
    | some comps => if industry2 ∈ comps then 7/10 else 3/10
    | none => 3/10

/-- Function `calculateValuesScore`: shared values over the smaller set size; 0 when
either list is empty. -/
def calculateValuesScore (values1 values2 : List String) : ℚ :=
  if values1 = [] ∨ values2 = [] then 0
  else
    let sharedValues := values1.filter (fun value => decide (value ∈ values2))
    let maxPossibleShared := min values1.length values2.length
    (sharedValues.length : ℚ) / (maxPossibleShared : ℚ)

/-- Function `calculateObjectivesScore`: same formula as the values score. -/
def calculateObjectivesScore (objectives1 objectives2 : List String) : ℚ :=
  if objectives1 = [] ∨ objectives2 = [] then 0
  else
    let sharedObjectives := objectives1.filter (fun obj => decide (obj ∈ objectives2))
    let maxPossibleShared := min objectives1.length objectives2.length
    (sharedObjectives.length : ℚ) / (maxPossibleShared : ℚ)

/-- The geographic-focus compatibility matrix (all entries are nonzero, so
the JS truthiness test on a found entry is the same as a successful lookup). -/
def geographyCompatibilityMatrix : List (String × List (String × ℚ)) :=
  [("local", [("local", 1), ("regional", 8/10), ("national", 4/10),
              ("international", 2/10), ("global", 1/10)]),
   ("regional", [("local", 8/10), ("regional", 1), ("national", 7/10),
                 ("international", 3/10), ("global", 2/10)]),
   ("national", [("local", 4/10), ("regional", 7/10), ("national", 1),
                 ("international", 7/10), ("global", 5/10)]),
   ("international", [("local", 2/10), ("regional", 3/10), ("national", 7/10),
                      ("international", 1), ("global", 8/10)]),
   ("global", [("local", 1/10), ("regional", 2/10), ("national", 5/10),
               ("international", 8/10), ("global", 1)])]

/-- Function `calculateGeographyScore`: 1.0 on a direct match, the matrix entry when
one exists, default 0.3; 0 when either argument is missing. -/
def calculateGeographyScore (geography1 geography2 : String) : ℚ :=
  if geography1 = "" ∨ geography2 = "" then 0
  else if geography1 = geography2 then 1
  else
    match (geographyCompatibilityMatrix.lookup geography1).bind
        (fun row => row.lookup geography2) with
    | some v => v
    | none => 3/10

/-- The company-size compatibility matrix. -/
def sizeCompatibilityMatrix : List (String × List (String × ℚ)) :=
  [("startup", [("startup", 1), ("small", 9/10), ("medium", 6/10),
                ("large", 4/10), ("enterprise", 2/10)]),
   ("small", [("startup", 9/10), ("small", 1), ("medium", 8/10),
              ("large", 5/10), ("enterprise", 3/10)]),
   ("medium", [("startup", 6/10), ("small", 8/10), ("medium", 1),
               ("large", 8/10), ("enterprise", 6/10)]),
   ("large", [("startup", 4/10), ("small", 5/10), ("medium", 8/10),
              ("large", 1), ("enterprise", 9/10)]),
   ("enterprise", [("startup", 2/10), ("small", 3/10), ("medium", 6/10),
                   ("large", 9/10), ("enterprise", 1)])]

/-- Function `calculateSizeScore`: 1.0 on a direct match, the matrix entry when one
exists, default 0.5; 0 when either argument is missing. -/
def calculateSizeScore (size1 size2 : String) : ℚ :=
  if size1 = "" ∨ size2 = "" then 0
  else if size1 = size2 then 1
  else
    match (sizeCompatibilityMatrix.lookup size1).bind
        (fun row => row.lookup size2) with
    | some v => v
    | none => 1/2

/-- Function `calculateCompatibilityScore` on two (present) brand profiles: the
weighted sum of the five sub-scores, times 100, rounded. -/
def calculateCompatibilityScore (brand1 brand2 : Brand) : ℤ :=
  let industryScore := calculateIndustryScore brand1.industry brand2.industry
  let valuesScore := calculateValuesScore brand1.values brand2.values
  let objectivesScore := calculateObjectivesScore
    brand1.objectivesOrEmpty brand2.objectivesOrEmpty
  let geographyScore := calculateGeographyScore
    brand1.geographicFocus brand2.geographicFocus
  let sizeScore := calculateSizeScore brand1.companySize brand2.companySize
  let totalScore :=
    industryScore * weights.industry + valuesScore * weights.values +
    objectivesScore * weights.objectives + geographyScore * weights.geography +
    sizeScore * weights.companySize
  jsRound (totalScore * 100)

/-- A partner together with the `compatibilityScore` field that
`findMostPromisingPartners` spreads onto it. -/
structure ScoredPartner where
  partner : Brand
  compatibilityScore : ℤ

/-- Descending order on compatibility scores: the comparator
`(a, b) => b.compatibilityScore - a.compatibilityScore`. -/
def byScoreDesc (a b : ScoredPartner) : Prop :=
  b.compatibilityScore ≤ a.compatibilityScore

/-- Ascending order on compatibility scores: the comparator
`(a, b) => a.compatibilityScore - b.compatibilityScore`. -/
def byScoreAsc (a b : ScoredPartner) : Prop :=
  a.compatibilityScore ≤ b.compatibilityScore

instance : DecidableRel byScoreDesc :=
  fun a b => inferInstanceAs (Decidable (b.compatibilityScore ≤ a.compatibilityScore))

instance : DecidableRel byScoreAsc :=
  fun a b => inferInstanceAs (Decidable (a.compatibilityScore ≤ b.compatibilityScore))

instance : IsTotal ScoredPartner byScoreDesc :=
  ⟨fun a b => le_total b.compatibilityScore a.compatibilityScore⟩

instance : IsTrans ScoredPartner byScoreDesc :=
  ⟨fun _ _ _ hab hbc => le_trans hbc hab⟩

instance : IsTotal ScoredPartner byScoreAsc :=
  ⟨fun a b => le_total a.compatibilityScore b.compatibilityScore⟩

instance : IsTrans ScoredPartner byScoreAsc :=
  ⟨fun _ _ _ hab hbc => le_trans hab hbc⟩

/-- Function `sortPartnersByScore`: returns a sorted copy of the partner list,
ascending when `order` is `"asc"`, descending otherwise (the JS default is
`"desc"`). -/
def sortPartnersByScore (partners : List ScoredPartner) (order : String) :
    List ScoredPartner :=
  if partners.length = 0 then []
  else if order = "asc" then List.insertionSort byScoreAsc partners
  else List.insertionSort byScoreDesc partners

/-- Function `findMostPromisingPartners`: score every partner against the brand, sort
descending, and keep the first `limit` entries (the JS default limit is 5). -/
def findMostPromisingPartners (brand : Brand) (partners : List Brand) (limit : ℕ) :
    List ScoredPartner :=
  if partners.length = 0 then []
  else
    let partnersWithScores := partners.map
      (fun partner => ScoredPartner.mk partner (calculateCompatibilityScore brand partner))
    let sortedPartners := sortPartnersByScore partnersWithScores "desc"
    sortedPartners.take limit

end PartnerMatcher

/-! ## ROICalculator (ROI module)

Embedding of the ROI calculator: financial ROI, strategic value, risk
assessment, and the comprehensive partnership assessment. Numeric fields of
the input records are rationals with `0` standing for an absent (falsy)
field, except `audienceOverlap`, which the source tests with
`!== undefined` and is therefore an `Option`. -/

namespace ROICalculator

/-- Investment details (the `investment` record). -/
structure Investment where
  directCosts : ℚ := 0
  staffHours : ℚ := 0
  hourlyRate : ℚ := 0
  resourceAllocation : ℚ := 0
  marketingCosts : ℚ := 0
  technologyCosts : ℚ := 0
  otherCosts : ℚ := 0

/-- Expected returns (the `returns` record). -/
structure Returns where
  directRevenue : ℚ := 0
  costSavings : ℚ := 0
  newCustomers : ℚ := 0
  customerLTV : ℚ := 0
  marketShareIncrease : ℚ := 0
  marketShareValue : ℚ := 0
  otherReturns : ℚ := 0

/-- Function `calculateTotalInvestment`: each cost field is added when truthy; the
staff cost is hours times rate, added when both are truthy. -/
def calculateTotalInvestment (investment : Investment) : ℚ :=
  let total : ℚ := 0
  let total := if investment.directCosts ≠ 0 then total + investment.directCosts else total
  let total := if investment.staffHours ≠ 0 ∧ investment.hourlyRate ≠ 0 then
      total + investment.staffHours * investment.hourlyRate else total
  let total := if investment.resourceAllocation ≠ 0 then
      total + investment.resourceAllocation else total
  let total := if investment.marketingCosts ≠ 0 then total + investment.marketingCosts else total
  let total := if investment.technologyCosts ≠ 0 then total + investment.technologyCosts else total
  let total := if investment.otherCosts ≠ 0 then total + investment.otherCosts else total
  total

/-- Function `calculateTotalReturns`: monthly revenue and savings are scaled by the
timeframe; customer and market-share values are products of their pairs. -/
def calculateTotalReturns (ret : Returns) (timeframeMonths : ℚ) : ℚ :=
  let total : ℚ := 0
  let total := if ret.directRevenue ≠ 0 then
      total + ret.directRevenue * timeframeMonths else total
  let total := if ret.costSavings ≠ 0 then
      total + ret.costSavings * timeframeMonths else total
  let total := if ret.newCustomers ≠ 0 ∧ ret.customerLTV ≠ 0 then
      total + ret.newCustomers * ret.customerLTV else total
  let total := if ret.marketShareIncrease ≠ 0 ∧ ret.marketShareValue ≠ 0 then
      total + ret.marketShareIncrease * ret.marketShareValue else total
  let total := if ret.otherReturns ≠ 0 then total + ret.otherReturns else total
  total

/-- The record `calculateFinancialROI` builds. `paybackMonths = none` stands
for the JS value `Infinity`. -/
structure ROIResult where
  totalInvestment : ℚ
  totalReturns : ℚ
  netReturn : ℚ
  roiPercentage : ℚ
  paybackMonths : Option ℚ
  timeframeMonths : ℚ

/-- Function `calculateFinancialROI`: `none` is the JS `null` result for a missing
input record or a non-positive timeframe. -/
def calculateFinancialROI (investment : Option Investment) (ret : Option Returns)
    (timeframeMonths : ℚ) : Option ROIResult :=
  match investment, ret with
  | some investment, some ret =>
    if timeframeMonths ≤ 0 then none
    else
      let totalInvestment := calculateTotalInvestment investment
      let totalReturns := calculateTotalReturns ret timeframeMonths
      let netReturn := totalReturns - totalInvestment
      let roiPercentage := if 0 < totalInvestment then netReturn / totalInvestment * 100 else 0
      let paybackMonths := if 0 < totalReturns then
          some (totalInvestment / (totalReturns / timeframeMonths)) else none
      some { totalInvestment, totalReturns, netReturn, roiPercentage,
             paybackMonths, timeframeMonths }
  | _, _ => none

/-- Partnership details for the strategic-value, risk and comprehensive
assessments. Every numeric field defaults to `0` (absent). -/
structure Partnership where
  investment : Option Investment := none
  returns : Option Returns := none
  timeframeMonths : ℚ := 0
  audienceReach : ℚ := 0
  audienceOverlap : Option ℚ := none
  audienceEngagement : ℚ := 0
  brandAlignment : ℚ := 0
  reputationEnhancement : ℚ := 0
  brandVisibility : ℚ := 0
  innovationPotential : ℚ := 0
  technologyAccess : ℚ := 0
  ipCreation : ℚ := 0
  newMarketAccess : ℚ := 0
  channelExpansion : ℚ := 0
  competitiveAdvantage : ℚ := 0
  strategicAlignment : ℚ := 0
  longTermPotential : ℚ := 0
  ecosystemIntegration : ℚ := 0
  investmentSize : ℚ := 0
  revenueUncertainty : ℚ := 0
  costOverrunRisk : ℚ := 0
  partnerReputationRisk : ℚ := 0
  brandAlignmentRisk : ℚ := 0
  integrationComplexity : ℚ := 0
  resourceConflictRisk : ℚ := 0
  timelineRisk : ℚ := 0
  goalMisalignmentRisk : ℚ := 0
  dependencyRisk : ℚ := 0
  competitiveDisclosureRisk : ℚ := 0

/-- Function `calculateAudienceScore`: reach (max 60 points, capped at 30% before
doubling), low overlap (max 20) and engagement (max 20), rounded and capped
at 100. -/
def calculateAudienceScore (partnership : Partnership) : ℤ :=
  let score : ℚ := 0
  let score := if partnership.audienceReach ≠ 0 then
      score + min 30 partnership.audienceReach * 2 else score
  let score := match partnership.audienceOverlap with
    | some overlap => score + (100 - overlap) * (2/10)
    | none => score
  let score := if partnership.audienceEngagement ≠ 0 then
      score + partnership.audienceEngagement * 4 else score
  min 100 (jsRound score)

/-- Function `calculateBrandScore`: alignment (max 50), reputation enhancement
(max 30), visibility (max 20). -/
def calculateBrandScore (partnership : Partnership) : ℤ :=
  let score : ℚ := 0
  let score := if partnership.brandAlignment ≠ 0 then
      score + partnership.brandAlignment * 10 else score
  let score := if partnership.reputationEnhancement ≠ 0 then
      score + partnership.reputationEnhancement * 6 else score
  let score := if partnership.brandVisibility ≠ 0 then
      score + partnership.brandVisibility * (2/10) else score
  min 100 (jsRound score)

/-- Function `calculateInnovationScore`: potential (max 50), technology access
(max 30), IP creation (max 20). -/
def calculateInnovationScore (partnership : Partnership) : ℤ :=
  let score : ℚ := 0
  let score := if partnership.innovationPotential ≠ 0 then
      score + partnership.innovationPotential * 10 else score
  let score := if partnership.technologyAccess ≠ 0 then
      score + partnership.technologyAccess * 6 else score
  let score := if partnership.ipCreation ≠ 0 then
      score + partnership.ipCreation * 4 else score
  min 100 (jsRound score)

/-- Function `calculateMarketAccessScore`: new markets (max 50), channel expansion
(max 30), competitive advantage (max 20). -/
def calculateMarketAccessScore (partnership : Partnership) : ℤ :=
  let score : ℚ := 0
  let score := if partnership.newMarketAccess ≠ 0 then
      score + partnership.newMarketAccess * 10 else score
  let score := if partnership.channelExpansion ≠ 0 then
      score + partnership.channelExpansion * 6 else score
  let score := if partnership.competitiveAdvantage ≠ 0 then
      score + partnership.competitiveAdvantage * 4 else score
  min 100 (jsRound score)

/-- Function `calculateRelationshipScore`: strategic alignment (max 50), long-term
potential (max 40), ecosystem integration (max 10). -/
def calculateRelationshipScore (partnership : Partnership) : ℤ :=
  let score : ℚ := 0
  let score := if partnership.strategicAlignment ≠ 0 then
      score + partnership.strategicAlignment * 10 else score
  let score := if partnership.longTermPotential ≠ 0 then
      score + partnership.longTermPotential * 8 else score
  let score := if partnership.ecosystemIntegration ≠ 0 then
      score + partnership.ecosystemIntegration * 2 else score
  min 100 (jsRound score)

/-- The strategic-value result: the overall score and the five dimension
scores of the `dimensionScores` record. -/
structure StrategicValue where
  overallScore : ℤ
  audience : ℤ
  brand : ℤ
  innovation : ℤ
  marketAccess : ℤ
  relationship : ℤ

/-- Function `calculateStrategicValue` on a present partnership record: the overall
score is the rounded mean of the five dimension scores. -/
def calculateStrategicValue (partnership : Partnership) : StrategicValue :=
  let audienceScore := calculateAudienceScore partnership
  let brandScore := calculateBrandScore partnership
  let innovationScore := calculateInnovationScore partnership
  let marketAccessScore := calculateMarketAccessScore partnership
  let relationshipScore := calculateRelationshipScore partnership
  let overallScore := jsRound
    (((audienceScore + brandScore + innovationScore + marketAccessScore +
       relationshipScore : ℤ) : ℚ) / 5)
  { overallScore
    audience := audienceScore
    brand := brandScore
    innovation := innovationScore
    marketAccess := marketAccessScore
    relationship := relationshipScore }

/-- Function `calculateFinancialRisk`: investment size (max 50), revenue uncertainty
(max 30), cost overrun (max 20). -/
def calculateFinancialRisk (partnership : Partnership) : ℤ :=
  let riskScore : ℚ := 0
  let riskScore := if partnership.investmentSize ≠ 0 then
      riskScore + partnership.investmentSize * 10 else riskScore
  let riskScore := if partnership.revenueUncertainty ≠ 0 then
      riskScore + partnership.revenueUncertainty * 6 else riskScore
  let riskScore := if partnership.costOverrunRisk ≠ 0 then
      riskScore + partnership.costOverrunRisk * 4 else riskScore
  min 100 (jsRound riskScore)

/-- Function `calculateReputationRisk`: partner reputation (max 60), brand alignment
(max 40). -/
def calculateReputationRisk (partnership : Partnership) : ℤ :=
  let riskScore : ℚ := 0
  let riskScore := if partnership.partnerReputationRisk ≠ 0 then
      riskScore + partnership.partnerReputationRisk * 12 else riskScore
  let riskScore := if partnership.brandAlignmentRisk ≠ 0 then
      riskScore + partnership.brandAlignmentRisk * 8 else riskScore
  min 100 (jsRound riskScore)

/-- Function `calculateOperationalRisk`: integration complexity (max 50), resource
conflicts (max 30), timeline (max 20). -/
def calculateOperationalRisk (partnership : Partnership) : ℤ :=
  let riskScore : ℚ := 0
  let riskScore := if partnership.integrationComplexity ≠ 0 then
      riskScore + partnership.integrationComplexity * 10 else riskScore
  let riskScore := if partnership.resourceConflictRisk ≠ 0 then
      riskScore + partnership.resourceConflictRisk * 6 else riskScore
  let riskScore := if partnership.timelineRisk ≠ 0 then
      riskScore + partnership.timelineRisk * 4 else riskScore
  min 100 (jsRound riskScore)

/-- Function `calculateStrategicRisk`: goal misalignment (max 50), dependency
(max 40), competitive disclosure (max 10). -/
def calculateStrategicRisk (partnership : Partnership) : ℤ :=
  let riskScore : ℚ := 0
  let riskScore := if partnership.goalMisalignmentRisk ≠ 0 then
      riskScore + partnership.goalMisalignmentRisk * 10 else riskScore
  let riskScore := if partnership.dependencyRisk ≠ 0 then
      riskScore + partnership.dependencyRisk * 8 else riskScore
  let riskScore := if partnership.competitiveDisclosureRisk ≠ 0 then
      riskScore + partnership.competitiveDisclosureRisk * 2 else riskScore
  min 100 (jsRound riskScore)

/-- The per-category scores handed to the mitigation recommendations. -/
structure RiskScores where
  financialRisk : ℤ
  reputationRisk : ℤ
  operationalRisk : ℤ
  strategicRisk : ℤ

/-- Function `generateRiskMitigationRecommendations`: two static strings per category
at the severe threshold (60), two others at the moderate threshold (30). -/
def generateRiskMitigationRecommendations (riskScores : RiskScores) : List String :=
  let recs : List String := []
  let recs := if riskScores.financialRisk ≥ 60 then
      recs ++ ["Implement phased investment approach with clear go/no-go decision points.",
               "Establish detailed financial monitoring with regular review intervals."]
    else if riskScores.financialRisk ≥ 30 then
      recs ++ ["Set clear financial metrics and performance indicators.",
               "Include contingency funding in the partnership budget."]
    else recs
  let recs := if riskScores.reputationRisk ≥ 60 then
      recs ++ ["Conduct thorough reputation due diligence before finalizing the partnership.",
               "Create a comprehensive crisis communication plan."]
    else if riskScores.reputationRisk ≥ 30 then
      recs ++ ["Define brand usage guidelines for the partnership.",
               "Implement a media monitoring system for early risk detection."]
    else recs
  let recs := if riskScores.operationalRisk ≥ 60 then
      recs ++ ["Appoint dedicated integration managers from both organizations.",
               "Develop detailed implementation roadmap with clear dependencies and critical path."]
    else if riskScores.operationalRisk ≥ 30 then
      recs ++ ["Establish a joint steering committee for operational oversight.",
               "Create clear escalation paths for operational issues."]
    else recs
  let recs := if riskScores.strategicRisk ≥ 60 then
      recs ++ ["Define a detailed exit strategy before partnership launch.",
               "Implement formal quarterly strategic alignment reviews."]
    else if riskScores.strategicRisk ≥ 30 then
      recs ++ ["Document shared strategic objectives with measurable outcomes.",
               "Define clear intellectual property rights and usage agreements."]
    else recs
  recs

/-- The risk-assessment result. -/
structure RiskAssessment where
  overallRisk : ℤ
  riskLevel : String
  financial : ℤ
  reputation : ℤ
  operational : ℤ
  strategic : ℤ
  recommendations : List String

/-- Function `calculateRiskAssessment` on a present partnership record: the overall
risk is the rounded mean of the four category scores, banded into a level. -/
def calculateRiskAssessment (partnership : Partnership) : RiskAssessment :=
  let financialRisk := calculateFinancialRisk partnership
  let reputationRisk := calculateReputationRisk partnership
  let operationalRisk := calculateOperationalRisk partnership
  let strategicRisk := calculateStrategicRisk partnership
  let overallRisk := jsRound
    (((financialRisk + reputationRisk + operationalRisk + strategicRisk : ℤ) : ℚ) / 4)
  let riskLevel :=
    if overallRisk < 25 then "Low"
    else if overallRisk < 50 then "Moderate"
    else if overallRisk < 75 then "High"
    else "Critical"
  { overallRisk, riskLevel
    financial := financialRisk
    reputation := reputationRisk
    operational := operationalRisk
    strategic := strategicRisk
    recommendations := generateRiskMitigationRecommendations
      ⟨financialRisk, reputationRisk, operationalRisk, strategicRisk⟩ }

/-- The comprehensive assessment record. -/
structure PartnershipROI where
  overallScore : ℤ
  recommendation : String
  financialROI : ROIResult
  strategicValue : StrategicValue
  riskAssessment : RiskAssessment

/-- Function `calculatePartnershipROI`. A `none` argument is the JS `null` input,
answered with `.ok none` (the function returns `null`). When the inner
`calculateFinancialROI` returns `null` (missing `investment` or `returns`
sub-record, or non-positive timeframe), the source immediately reads
`financialROI.roiPercentage`, which throws: that is the `.error` case. -/
def calculatePartnershipROI (partnership : Option Partnership) :
    Except String (Option PartnershipROI) :=
  match partnership with
  | none => .ok none
  | some partnership =>
    let financialROI := calculateFinancialROI partnership.investment partnership.returns
      (if partnership.timeframeMonths ≠ 0 then partnership.timeframeMonths else 12)
    let strategicValue := calculateStrategicValue partnership
    let riskAssessment := calculateRiskAssessment partnership
    match financialROI with
    | none => .error "TypeError: Cannot read properties of null (reading roiPercentage)"
    | some financialROI =>
      let overallScore : ℚ :=
        if financialROI.roiPercentage > 200 then 40
        else if financialROI.roiPercentage > 100 then 30
        else if financialROI.roiPercentage > 50 then 20
        else if financialROI.roiPercentage > 0 then 10
        else 0
      let overallScore := overallScore + (strategicValue.overallScore : ℚ) * (4/10)
      let overallScore := overallScore + (100 - (riskAssessment.overallRisk : ℚ)) * (2/10)
      let overallScore := jsRound overallScore
      let recommendation :=
        if overallScore ≥ 80 then "Strongly Recommended"
        else if overallScore ≥ 60 then "Recommended"
        else if overallScore ≥ 40 then "Consider with Modifications"
        else "Not Recommended"
      .ok (some { overallScore, recommendation, financialROI, strategicValue, riskAssessment })

end ROICalculator

/-! ## DataManager (data module)

Embedding of the task handling and progress calculation of the data module.
JS arrays are reference values: `{...collaboration}` copies the reference
held in the `tasks` field, not the array, and `push` mutates the referenced
array in place. The heap of task arrays is made explicit as a `TaskStore`,
a list of arrays addressed by index, and a collaboration holds an optional
reference into it. The impure `new Date().toISOString()` and `generateId()`
calls are passed in as the `now` and `freshId` parameters. -/

namespace DataManager

/-- A stored task record. -/
structure Task where
  id : String
  title : String
  description : String
  assignedTo : String
  dueDate : Option String
  status : String
  priority : String
  createdAt : String
  updatedAt : String

/-- A caller-supplied task object: any field may be absent (`""` or `none`
stands for `undefined`). -/
structure TaskInput where
  id : String := ""
  title : String := ""
  description : String := ""
  assignedTo : String := ""
  dueDate : Option String := none
  status : String := ""
  priority : String := ""
  createdAt : String := ""

/-- The heap of task arrays: each index is one JS array object. -/
abbrev TaskStore := List (List Task)

/-- A collaboration record; `tasks` is a reference into the task store
(`none` when the collaboration has no `tasks` field yet). -/
structure Collaboration where
  id : String
  name : String
  tasks : Option ℕ
  createdAt : String
  updatedAt : String

/-- The task record `addTask` prepares from its `task` argument, with the
JS `||` defaults. -/
def mkNewTask (task : TaskInput) (now freshId : String) : Task :=
  { id := if task.id ≠ "" then task.id else freshId
    title := if task.title ≠ "" then task.title else "Untitled Task"
    description := if task.description ≠ "" then task.description else ""
    assignedTo := if task.assignedTo ≠ "" then task.assignedTo else ""
    dueDate := match task.dueDate with
      | some d => if d ≠ "" then some d else none
      | none => none
    status := if task.status ≠ "" then task.status else "pending"
    priority := if task.priority ≠ "" then task.priority else "medium"
    createdAt := if task.createdAt ≠ "" then task.createdAt else now
    updatedAt := now }

/-- Function `addTask`: the source makes a shallow copy `{...collaboration}` of the
collaboration and then `push`es the new task onto `updatedCollaboration.tasks`.
When the collaboration has no tasks array a fresh one is allocated; when it
has one, the copy holds the same array reference and the push appends to the
shared array in the store. Returns the updated store and the new
collaboration record. -/
def addTask (store : TaskStore) (collaboration : Collaboration) (task : TaskInput)
    (now freshId : String) : TaskStore × Collaboration :=
  let newTask := mkNewTask task now freshId
  match collaboration.tasks with
  | none =>
    (store ++ [[newTask]],
     { collaboration with tasks := some store.length, updatedAt := now })
  | some r =>
    (store.set r (store.getD r [] ++ [newTask]),
     { collaboration with tasks := some r, updatedAt := now })

/-- A task as the progress calculator sees it. -/
structure PTask where
  status : String

/-- A milestone record. -/
structure Milestone where
  status : String

/-- The statistics record `calculateTaskProgress` returns. -/
structure TaskStats where
  total : ℕ
  completed : ℕ
  inProgress : ℕ
  pending : ℕ
  progressPercentage : ℤ

/-- Function `calculateTaskProgress`: completed tasks count fully, in-progress tasks
count half. -/
def calculateTaskProgress (tasks : List PTask) : TaskStats :=
  let total := tasks.length
  let completed := (tasks.filter (fun task => task.status == "completed")).length
  let inProgress := (tasks.filter (fun task => task.status == "in-progress")).length
  let pending := (tasks.filter (fun task => task.status == "pending")).length
  let progressPercentage :=
    if 0 < total then
      jsRound (((completed : ℚ) + (inProgress : ℚ) * (5/10)) / (total : ℚ) * 100)
    else 0
  { total, completed, inProgress, pending, progressPercentage }

/-- The statistics record `calculateMilestoneProgress` returns. -/
structure MilestoneStats where
  total : ℕ
  completed : ℕ
  pending : ℕ
  missed : ℕ
  progressPercentage : ℤ

/-- Function `calculateMilestoneProgress`: only completed milestones count. -/
def calculateMilestoneProgress (milestones : List Milestone) : MilestoneStats :=
  let total := milestones.length
  let completed := (milestones.filter (fun milestone => milestone.status == "completed")).length
  let pending := (milestones.filter (fun milestone => milestone.status == "pending")).length
  let missed := (milestones.filter (fun milestone => milestone.status == "missed")).length
  let progressPercentage :=
    if 0 < total then jsRound ((completed : ℚ) / (total : ℚ) * 100) else 0
  { total, completed, pending, missed, progressPercentage }

/-- A collaboration as the progress calculator sees it. Dates are
millisecond timestamps; `endDate = none` is an absent end date. -/
structure ProgressCollab where
  tasks : List PTask
  milestones : List Milestone
  startDate : ℚ
  endDate : Option ℚ

/-- The record `calculateProgress` returns. -/
structure Progress where
  overallProgress : ℤ
  status : String
  daysRemaining : Option ℤ
  taskStats : TaskStats
  milestoneStats : MilestoneStats

/-- Function `calculateProgress` at the current time `now`: overall progress is a
60/40 blend of task and milestone progress; with an end date present, the
overall progress is compared against the schedule-expected progress, and
the status downgraded accordingly. -/
def calculateProgress (collaboration : ProgressCollab) (now : ℚ) : Progress :=
  let taskStats := calculateTaskProgress collaboration.tasks
  let milestoneStats := calculateMilestoneProgress collaboration.milestones
  let overallProgress := jsRound
    ((taskStats.progressPercentage : ℚ) * (6/10) +
     (milestoneStats.progressPercentage : ℚ) * (4/10))
  let daysRemaining : Option ℤ :=
    match collaboration.endDate with
    | some endDate => some (jsCeil ((endDate - now) / 86400000))
    | none => none
  let status :=
    match daysRemaining with
    | none => "On Track"
    | some dr =>
      let totalDuration := (collaboration.endDate.getD 0 - collaboration.startDate) / 86400000
      let elapsedDuration := totalDuration - (dr : ℚ)
      let expectedProgress := jsRound (elapsedDuration / totalDuration * 100)
      if overallProgress < expectedProgress - 10 then "Behind Schedule"
      else if overallProgress < expectedProgress - 20 then "At Risk"
      else "On Track"
  { overallProgress, status, daysRemaining, taskStats, milestoneStats }

end DataManager

/-! ## Concrete records used by the theorems -/

open PartnerMatcher ROICalculator DataManager

/-- A profile whose industry, geography and size are present and
self-identical, but whose values and objectives lists are empty. -/
def brandSelfNoValues : Brand :=
  { industry := "sports", values := [], geographicFocus := "local",
    companySize := "small", partnership := none }

/-- A fully populated profile for the witness. -/
def brandSelfFull : Brand :=
  { industry := "sports", values := ["community"], geographicFocus := "local",
    companySize := "small", partnership := some ⟨["product"]⟩ }

/-- A profile listing the value and objective twice. -/
def brandDupValues : Brand :=
  { industry := "sports", values := ["community", "community"],
    geographicFocus := "local", companySize := "small",
    partnership := some ⟨["product", "product"]⟩ }

/-- The same profile with each list deduplicated. -/
def brandOneValue : Brand :=
  { industry := "sports", values := ["community"], geographicFocus := "local",
    companySize := "small", partnership := some ⟨["product"]⟩ }

/-- A partnership whose audience reach is negative. -/
def partnershipNegativeReach : Partnership := { audienceReach := -50 }

/-- The example investment record. -/
def invExample : Investment := { directCosts := 1000 }

/-- The example returns record. -/
def retExample : Returns := { directRevenue := 200 }

/-- An investment record with a negative cost. -/
def invNegative : Investment := { directCosts := -1000 }

/-- A partnership record whose `investment` sub-record is absent. -/
def partnershipNoInvestment : Partnership :=
  { returns := some { directRevenue := 100 } }

/-- A stored task. -/
def task0 : Task :=
  { id := "t0", title := "Kickoff", description := "", assignedTo := "",
    dueDate := none, status := "pending", priority := "medium",
    createdAt := "2025-01-01", updatedAt := "2025-01-01" }

/-- A store holding one task array, referenced by `collab0`. -/
def store0 : TaskStore := [[task0]]

/-- A collaboration whose `tasks` field references array 0 of `store0`. -/
def collab0 : Collaboration :=
  { id := "c0", name := "Pilot", tasks := some 0,
    createdAt := "2025-01-01", updatedAt := "2025-01-01" }

/-- A task to add. -/
def taskNew : TaskInput := { title := "New Task" }

/-- The all-absent partnership. -/
def riskLo : Partnership := { }

/-- A partnership rating every risk input 1. -/
def riskHi : Partnership :=
  { investmentSize := 1, revenueUncertainty := 1, costOverrunRisk := 1,
    partnerReputationRisk := 1, brandAlignmentRisk := 1, integrationComplexity := 1,
    resourceConflictRisk := 1, timelineRisk := 1, goalMisalignmentRisk := 1,
    dependencyRisk := 1, competitiveDisclosureRisk := 1 }

/-- A brand in the automotive industry. -/
def brandAutomotive : Brand :=
  { industry := "automotive", values := ["innovation"], geographicFocus := "national",
    companySize := "large", partnership := some ⟨["product"]⟩ }

/-- The same brand in the technology industry. -/
def brandTechnology : Brand := { brandAutomotive with industry := "technology" }

/-! ## Theorems -/

/-- The function `jsRound` is the Mathlib floor of `x + 1/2`. -/
theorem jsRound_eq_floor (x : ℚ) : jsRound x = ⌊x + 1/2⌋ := by
  rw [jsRound, Rat.floor_def', ← Rat.floor_def]

/-- The function `jsRound` is monotone. -/
theorem jsRound_mono {x y : ℚ} (h : x ≤ y) : jsRound x ≤ jsRound y := by
  rw [jsRound_eq_floor, jsRound_eq_floor]
  exact Int.floor_le_floor (by linarith)



/-! ## Helper lemmas -/

/-- Self-comparison of a nonempty values list scores 1. -/
theorem calculateValuesScore_self (v : List String) (hv : v ≠ []) :
    calculateValuesScore v v = 1 := by
  unfold calculateValuesScore
  rw [if_neg (by simp [hv])]
  have hfil : v.filter (fun value => decide (value ∈ v)) = v :=
    List.filter_eq_self.mpr (fun a ha => by simpa using ha)
  have hlen : (v.length : ℚ) ≠ 0 :=
    Nat.cast_ne_zero.mpr (List.length_pos.mpr hv).ne'
  simp only [hfil, min_self]
  rw [div_self hlen]

/-- The objectives score is the same function as the values score. -/
theorem calculateObjectivesScore_eq_values (a b : List String) :
    calculateObjectivesScore a b = calculateValuesScore a b := rfl

/-- Adding a truthiness-guarded summand is plain addition. -/
theorem addIf_ne (t x : ℚ) : (if x ≠ 0 then t + x else t) = t + x := by
  split_ifs with h
  · rfl
  · rw [not_not.mp h, add_zero]

/-- Adding a truthiness-guarded scaled summand is plain addition. -/
theorem addIf_ne_mulArg (t x m : ℚ) :
    (if x ≠ 0 then t + x * m else t) = t + x * m := by
  split_ifs with h
  · rfl
  · rw [not_not.mp h, zero_mul, add_zero]

/-- Adding a doubly-guarded product is plain addition. -/
theorem addIf_ne_and (t x y : ℚ) :
    (if x ≠ 0 ∧ y ≠ 0 then t + x * y else t) = t + x * y := by
  split_ifs with h
  · rfl
  · rcases not_and_or.mp h with h | h <;>
      rw [not_not.mp h] <;> ring

/-! ## C1 -/

/-- C1 counterexample: the identical-profile score of `brandSelfNoValues`
(industry, geography and size all present and self-identical) is 50, not
100, because the empty values and objectives lists self-overlap to 0, not
to 1. -/
theorem selfScore_empty_values_ne_100 :
    brandSelfNoValues.industry ≠ "" ∧ brandSelfNoValues.geographicFocus ≠ "" ∧
    brandSelfNoValues.companySize ≠ "" ∧
    calculateCompatibilityScore brandSelfNoValues brandSelfNoValues = 50 ∧
    (50 : ℤ) ≠ 100 := by
  refine ⟨by simp [brandSelfNoValues], by simp [brandSelfNoValues],
    by simp [brandSelfNoValues], ?_, by decide⟩
  simp +decide [calculateCompatibilityScore, calculateIndustryScore, calculateValuesScore,
    calculateObjectivesScore, calculateGeographyScore, calculateSizeScore, brandSelfNoValues,
    Brand.objectivesOrEmpty, weights, jsRound_eq_floor]
  norm_num [Int.floor_eq_iff]

/-- C1 (amended): the identical-profile score is 100 when industry,
geography and company size are present and the values and partnership
objectives lists are nonempty. -/
theorem selfScore_eq_100_of_nonempty_fields (a : Brand)
    (hi : a.industry ≠ "") (hg : a.geographicFocus ≠ "") (hs : a.companySize ≠ "")
    (hv : a.values ≠ []) (ho : a.objectivesOrEmpty ≠ []) :
    calculateCompatibilityScore a a = 100 := by
  have h1 : calculateIndustryScore a.industry a.industry = 1 := by
    unfold calculateIndustryScore
    rw [if_neg (by simp [hi]), if_pos rfl]
  have h2 : calculateGeographyScore a.geographicFocus a.geographicFocus = 1 := by
    unfold calculateGeographyScore
    rw [if_neg (by simp [hg]), if_pos rfl]
  have h3 : calculateSizeScore a.companySize a.companySize = 1 := by
    unfold calculateSizeScore
    rw [if_neg (by simp [hs]), if_pos rfl]
  have h4 := calculateValuesScore_self a.values hv
  have h5 : calculateObjectivesScore a.objectivesOrEmpty a.objectivesOrEmpty = 1 := by
    rw [calculateObjectivesScore_eq_values]
    exact calculateValuesScore_self _ ho
  unfold calculateCompatibilityScore
  rw [h1, h2, h3, h4, h5, jsRound_eq_floor]
  norm_num [weights, Int.floor_eq_iff]

/-- C1 witness: the amended theorem applied to `brandSelfFull`. -/
theorem selfScore_eq_100_witness :
    brandSelfFull.values ≠ [] ∧ calculateCompatibilityScore brandSelfFull brandSelfFull = 100 :=
  ⟨by simp [brandSelfFull],
   selfScore_eq_100_of_nonempty_fields brandSelfFull
     (by simp [brandSelfFull]) (by simp [brandSelfFull]) (by simp [brandSelfFull])
     (by simp [brandSelfFull]) (by simp [brandSelfFull, Brand.objectivesOrEmpty])⟩



/-! ## C2 -/

/-- C2 refutation at concrete inputs: with a duplicated value the shared
count exceeds the smaller list length and the compatibility score reaches
150; with a negative audience reach the audience score is -100. Both leave
the claimed [0,100] range. -/
theorem scores_escape_unit_range :
    calculateCompatibilityScore brandDupValues brandOneValue = 150 ∧ (100 : ℤ) < 150 ∧
    calculateAudienceScore partnershipNegativeReach = -100 ∧ (-100 : ℤ) < 0 := by
  refine ⟨?_, by decide, ?_, by decide⟩
  · simp +decide [calculateCompatibilityScore, calculateIndustryScore, calculateValuesScore,
      calculateObjectivesScore, calculateGeographyScore, calculateSizeScore, brandDupValues,
      brandOneValue, Brand.objectivesOrEmpty, weights, jsRound_eq_floor]
    norm_num [Int.floor_eq_iff]
  · simp +decide [calculateAudienceScore, partnershipNegativeReach, jsRound_eq_floor]
    norm_num [Int.floor_eq_iff]

/-! ## C3 -/

/-- The total investment collapses to the sum of the six cost fields (the
staff cost being hours times rate). -/
theorem calculateTotalInvestment_eq (investment : Investment) :
    calculateTotalInvestment investment =
      investment.directCosts + investment.staffHours * investment.hourlyRate +
      investment.resourceAllocation + investment.marketingCosts +
      investment.technologyCosts + investment.otherCosts := by
  simp only [calculateTotalInvestment, addIf_ne, addIf_ne_and]
  ring

/-- The total returns collapse to the claimed closed form. -/
theorem calculateTotalReturns_eq (ret : Returns) (m : ℚ) :
    calculateTotalReturns ret m =
      ret.directRevenue * m + ret.costSavings * m +
      ret.newCustomers * ret.customerLTV +
      ret.marketShareIncrease * ret.marketShareValue + ret.otherReturns := by
  simp only [calculateTotalReturns, addIf_ne, addIf_ne_mulArg, addIf_ne_and]
  ring

/-- C3 (amended): with a positive timeframe, `calculateFinancialROI`
returns the closed-form record; the ROI percentage formula applies whenever
the total investment is positive (and the result is 0 otherwise, also for a
negative total), and the payback formula whenever the total returns are
positive (infinite otherwise, also for a negative total). -/
theorem financialROI_closed_form (investment : Investment) (ret : Returns) (m : ℚ)
    (hm : 0 < m) :
    calculateFinancialROI (some investment) (some ret) m =
      (let T := investment.directCosts + investment.staffHours * investment.hourlyRate +
          investment.resourceAllocation + investment.marketingCosts +
          investment.technologyCosts + investment.otherCosts
       let R := ret.directRevenue * m + ret.costSavings * m +
          ret.newCustomers * ret.customerLTV +
          ret.marketShareIncrease * ret.marketShareValue + ret.otherReturns
       some { totalInvestment := T, totalReturns := R, netReturn := R - T,
              roiPercentage := if 0 < T then (R - T) / T * 100 else 0,
              paybackMonths := if 0 < R then some (T / (R / m)) else none,
              timeframeMonths := m }) := by
  simp only [calculateFinancialROI, if_neg (not_le.mpr hm),
    calculateTotalInvestment_eq, calculateTotalReturns_eq]

/-- C3 witness: the closed form at the documented example. -/
theorem financialROI_closed_form_witness :
    (0 : ℚ) < 12 ∧
    calculateFinancialROI (some invExample) (some retExample) 12 =
      some { totalInvestment := 1000, totalReturns := 2400, netReturn := 1400,
             roiPercentage := 140, paybackMonths := some 5, timeframeMonths := 12 } := by
  refine ⟨by norm_num, ?_⟩
  rw [financialROI_closed_form invExample retExample 12 (by norm_num)]
  norm_num [invExample, retExample]

/-- C3 counterexample: at a negative total investment the source returns an
ROI percentage of 0, while the claimed formula demands -340. -/
theorem financialROI_negative_investment_cex :
    (calculateFinancialROI (some invNegative) (some retExample) 12).map
      ROIResult.roiPercentage = some 0 ∧
    (2400 - (-1000) : ℚ) / (-1000) * 100 = -340 ∧ ((0 : ℚ) ≠ -340) := by
  refine ⟨?_, by norm_num, by norm_num⟩
  simp +decide [calculateFinancialROI, calculateTotalInvestment, calculateTotalReturns,
    invNegative, retExample]

/-! ## C4 -/

/-- C4: `calculatePartnershipROI` on a record with no `investment` field
throws (the inner financial ROI is null and the source reads
`financialROI.roiPercentage`), instead of returning a null or zero result. -/
theorem partnershipROI_missing_investment_throws :
    calculatePartnershipROI (some partnershipNoInvestment) =
      .error "TypeError: Cannot read properties of null (reading roiPercentage)" := by
  rfl



/-! ## C5 -/

/-- C5 (amended): when the collaboration already holds a (valid) reference
to a tasks array, `addTask` returns a fresh collaboration record, but the
new task is pushed onto the shared array: the array the original
collaboration references now ends in the new task. -/
theorem addTask_appends_to_shared_array (store : TaskStore) (c : Collaboration)
    (task : TaskInput) (now freshId : String) (r : ℕ)
    (hc : c.tasks = some r) (hr : r < store.length) :
    (addTask store c task now freshId).1.getD r [] =
      store.getD r [] ++ [mkNewTask task now freshId] ∧
    (addTask store c task now freshId).2 =
      { c with tasks := some r, updatedAt := now } := by
  constructor
  · simp only [addTask, hc]
    simp [List.getD_eq_getElem?_getD, List.getElem?_set_self hr]
  · simp only [addTask, hc]

/-- C5 counterexample: after `addTask`, the tasks array referenced by the
original collaboration has gained the new task, so the original
collaboration (through its shared tasks array) is changed. -/
theorem addTask_mutates_shared_array_cex :
    collab0.tasks = some 0 ∧
    store0.getD 0 [] = [task0] ∧
    (addTask store0 collab0 taskNew "2025-02-01" "t1").1.getD 0 [] =
      [task0, mkNewTask taskNew "2025-02-01" "t1"] ∧
    (addTask store0 collab0 taskNew "2025-02-01" "t1").1.getD 0 [] ≠
      store0.getD 0 [] := by
  refine ⟨rfl, rfl, rfl, fun h => ?_⟩
  have := congrArg List.length h
  simp [addTask, store0, collab0] at this

/-- C5 witness: the amended theorem applied to the concrete store. -/
theorem addTask_appends_witness :
    collab0.tasks = some 0 ∧ 0 < store0.length ∧
    (addTask store0 collab0 taskNew "2025-02-01" "t1").1.getD 0 [] =
      store0.getD 0 [] ++ [mkNewTask taskNew "2025-02-01" "t1"] :=
  ⟨rfl, by simp [store0],
   (addTask_appends_to_shared_array store0 collab0 taskNew "2025-02-01" "t1" 0
     rfl (by simp [store0])).1⟩

/-! ## C6 -/

/-- C6: the status `calculateProgress` reports is always one of
`"On Track"` and `"Behind Schedule"`; the `"At Risk"` branch is dead code,
because its condition implies the `"Behind Schedule"` condition tested
first. -/
theorem calculateProgress_never_at_risk (collaboration : ProgressCollab) (now : ℚ) :
    (calculateProgress collaboration now).status = "On Track" ∨
    (calculateProgress collaboration now).status = "Behind Schedule" := by
  simp only [calculateProgress]
  cases h : collaboration.endDate with
  | none => simp [h]
  | some endDate =>
    simp only [h]
    split_ifs with h1 h2
    · right; rfl
    · exfalso; omega
    · left; rfl



/-! ## C7 -/

/-- Each risk scoring function is monotone in its inputs once the guards
are collapsed; this is the financial one. -/
theorem calculateFinancialRisk_mono (p q : Partnership)
    (h1 : p.investmentSize ≤ q.investmentSize)
    (h2 : p.revenueUncertainty ≤ q.revenueUncertainty)
    (h3 : p.costOverrunRisk ≤ q.costOverrunRisk) :
    calculateFinancialRisk p ≤ calculateFinancialRisk q := by
  simp only [calculateFinancialRisk, addIf_ne_mulArg]
  exact min_le_min le_rfl (jsRound_mono (by linarith))

/-- Monotonicity of the reputation risk score. -/
theorem calculateReputationRisk_mono (p q : Partnership)
    (h1 : p.partnerReputationRisk ≤ q.partnerReputationRisk)
    (h2 : p.brandAlignmentRisk ≤ q.brandAlignmentRisk) :
    calculateReputationRisk p ≤ calculateReputationRisk q := by
  simp only [calculateReputationRisk, addIf_ne_mulArg]
  exact min_le_min le_rfl (jsRound_mono (by linarith))

/-- Monotonicity of the operational risk score. -/
theorem calculateOperationalRisk_mono (p q : Partnership)
    (h1 : p.integrationComplexity ≤ q.integrationComplexity)
    (h2 : p.resourceConflictRisk ≤ q.resourceConflictRisk)
    (h3 : p.timelineRisk ≤ q.timelineRisk) :
    calculateOperationalRisk p ≤ calculateOperationalRisk q := by
  simp only [calculateOperationalRisk, addIf_ne_mulArg]
  exact min_le_min le_rfl (jsRound_mono (by linarith))

/-- Monotonicity of the strategic risk score. -/
theorem calculateStrategicRisk_mono (p q : Partnership)
    (h1 : p.goalMisalignmentRisk ≤ q.goalMisalignmentRisk)
    (h2 : p.dependencyRisk ≤ q.dependencyRisk)
    (h3 : p.competitiveDisclosureRisk ≤ q.competitiveDisclosureRisk) :
    calculateStrategicRisk p ≤ calculateStrategicRisk q := by
  simp only [calculateStrategicRisk, addIf_ne_mulArg]
  exact min_le_min le_rfl (jsRound_mono (by linarith))

/-- C7: increasing any of the eleven risk inputs (and decreasing none)
never decreases the overall risk score of the risk assessment. -/
theorem overallRisk_monotone (p q : Partnership)
    (h1 : p.investmentSize ≤ q.investmentSize)
    (h2 : p.revenueUncertainty ≤ q.revenueUncertainty)
    (h3 : p.costOverrunRisk ≤ q.costOverrunRisk)
    (h4 : p.partnerReputationRisk ≤ q.partnerReputationRisk)
    (h5 : p.brandAlignmentRisk ≤ q.brandAlignmentRisk)
    (h6 : p.integrationComplexity ≤ q.integrationComplexity)
    (h7 : p.resourceConflictRisk ≤ q.resourceConflictRisk)
    (h8 : p.timelineRisk ≤ q.timelineRisk)
    (h9 : p.goalMisalignmentRisk ≤ q.goalMisalignmentRisk)
    (h10 : p.dependencyRisk ≤ q.dependencyRisk)
    (h11 : p.competitiveDisclosureRisk ≤ q.competitiveDisclosureRisk) :
    (calculateRiskAssessment p).overallRisk ≤ (calculateRiskAssessment q).overallRisk := by
  have hf := calculateFinancialRisk_mono p q h1 h2 h3
  have hrep := calculateReputationRisk_mono p q h4 h5
  have hop := calculateOperationalRisk_mono p q h6 h7 h8
  have hst := calculateStrategicRisk_mono p q h9 h10 h11
  simp only [calculateRiskAssessment]
  apply jsRound_mono
  apply (div_le_div_iff_of_pos_right (by norm_num : (0:ℚ) < 4)).mpr
  exact_mod_cast add_le_add (add_le_add (add_le_add hf hrep) hop) hst

/-- C7 witness: monotonicity applied between the all-zero and all-one risk
profiles. -/
theorem overallRisk_monotone_witness :
    riskLo.investmentSize ≤ riskHi.investmentSize ∧
    (calculateRiskAssessment riskLo).overallRisk ≤
      (calculateRiskAssessment riskHi).overallRisk :=
  ⟨by norm_num [riskLo, riskHi],
   overallRisk_monotone riskLo riskHi
     (by norm_num [riskLo, riskHi]) (by norm_num [riskLo, riskHi])
     (by norm_num [riskLo, riskHi]) (by norm_num [riskLo, riskHi])
     (by norm_num [riskLo, riskHi]) (by norm_num [riskLo, riskHi])
     (by norm_num [riskLo, riskHi]) (by norm_num [riskLo, riskHi])
     (by norm_num [riskLo, riskHi]) (by norm_num [riskLo, riskHi])
     (by norm_num [riskLo, riskHi])⟩

/-! ## C8 -/

/-- C8: `findMostPromisingPartners` returns at most `limit` entries, sorted
by compatibility score in descending order. -/
theorem findMostPromisingPartners_sorted_and_bounded (brand : Brand)
    (partners : List Brand) (limit : ℕ) :
    (findMostPromisingPartners brand partners limit).length ≤ limit ∧
    List.Sorted byScoreDesc (findMostPromisingPartners brand partners limit) := by
  unfold findMostPromisingPartners
  split_ifs with h
  · simp
  · have hmap : (partners.map
        (fun partner => ScoredPartner.mk partner
          (calculateCompatibilityScore brand partner))).length = 0 ↔ False := by
      simp [h]
    constructor
    · simp only [sortPartnersByScore]
      rw [if_neg (by simp [h]), if_neg (by decide)]
      rw [List.length_take]
      exact min_le_left _ _
    · simp only [sortPartnersByScore]
      rw [if_neg (by simp [h]), if_neg (by decide)]
      exact List.Pairwise.sublist (List.take_sublist _ _)
        (List.sorted_insertionSort byScoreDesc _)

/-! ## C9 -/

/-- C9: the compatibility score is not symmetric: automotive lists
technology as complementary (sub-score 0.7) but not conversely (0.3), so
the two orders score 94 and 86. -/
theorem compatibilityScore_asymmetric :
    calculateCompatibilityScore brandTechnology brandAutomotive <
      calculateCompatibilityScore brandAutomotive brandTechnology ∧
    calculateCompatibilityScore brandAutomotive brandTechnology = 94 ∧
    calculateCompatibilityScore brandTechnology brandAutomotive = 86 := by
  have h1 : calculateCompatibilityScore brandAutomotive brandTechnology = 94 := by
    simp +decide [calculateCompatibilityScore, calculateIndustryScore, calculateValuesScore,
      calculateObjectivesScore, calculateGeographyScore, calculateSizeScore,
      brandAutomotive, brandTechnology, Brand.objectivesOrEmpty, weights, jsRound_eq_floor,
      complementaryIndustries, List.lookup, geographyCompatibilityMatrix,
      sizeCompatibilityMatrix]
    norm_num [Int.floor_eq_iff]
  have h2 : calculateCompatibilityScore brandTechnology brandAutomotive = 86 := by
    simp +decide [calculateCompatibilityScore, calculateIndustryScore, calculateValuesScore,
      calculateObjectivesScore, calculateGeographyScore, calculateSizeScore,
      brandAutomotive, brandTechnology, Brand.objectivesOrEmpty, weights, jsRound_eq_floor,
      complementaryIndustries, List.lookup, geographyCompatibilityMatrix,
      sizeCompatibilityMatrix]
    norm_num [Int.floor_eq_iff]
  exact ⟨by rw [h1, h2]; decide, h1, h2⟩

/-! ## C10 -/

/-- C10: when either argument is missing, the geography, size and industry
sub-scores are 0 (not their documented defaults); the 0.3 and 0.5 defaults
arise exactly for non-empty, non-equal arguments whose pair the matrices do
not resolve, as at the unknown pairs below. -/
theorem subscore_missing_field_zero :
    (∀ x y : String, x = "" ∨ y = "" →
      calculateGeographyScore x y = 0 ∧ calculateSizeScore x y = 0 ∧
      calculateIndustryScore x y = 0) ∧
    (∀ x y : String, x ≠ "" → y ≠ "" → x ≠ y →
      (geographyCompatibilityMatrix.lookup x).bind (fun row => row.lookup y) = none →
      calculateGeographyScore x y = 3/10) ∧
    (∀ x y : String, x ≠ "" → y ≠ "" → x ≠ y →
      (sizeCompatibilityMatrix.lookup x).bind (fun row => row.lookup y) = none →
      calculateSizeScore x y = 1/2) ∧
    calculateGeographyScore "mars" "venus" = 3/10 ∧
    calculateSizeScore "mega" "tiny" = 1/2 := by
  refine ⟨?_, ?_, ?_, ?_, ?_⟩
  · intro x y h
    refine ⟨?_, ?_, ?_⟩
    · unfold calculateGeographyScore; rw [if_pos h]
    · unfold calculateSizeScore; rw [if_pos h]
    · unfold calculateIndustryScore; rw [if_pos h]
  · intro x y hx hy hxy hlook
    unfold calculateGeographyScore
    rw [if_neg (by simp [hx, hy]), if_neg hxy, hlook]
  · intro x y hx hy hxy hlook
    unfold calculateSizeScore
    rw [if_neg (by simp [hx, hy]), if_neg hxy, hlook]
  · simp [calculateGeographyScore, geographyCompatibilityMatrix, List.lookup]
  · simp [calculateSizeScore, sizeCompatibilityMatrix, List.lookup]

end SAB
